import Mathlib

/-!
Shallow embedding of the client-CRUD service (FastAPI + SQLAlchemy, single
`clients` table) and verification of its specification.

Source files embedded here:
* `models/clients.py` — the `Client` model: id (integer primary key,
  autoincrement), name, email (unique), created_at.
* `routers/responses.py` — `BaseAPIResponse`: the uniform response envelope.
* `routers/clients.py` — the five request handlers (create, list, get,
  update, delete).

Modelling conventions:
* The relational store is a `Store`: the list of rows in insertion order
  (an INSERT appends) together with the autoincrement counter for `id`.
  The store-level email uniqueness constraint (`email = Column(..., unique=True)`)
  is part of the store semantics: an INSERT or UPDATE that would leave two
  rows with the same email raises.
* Timestamps are abstract ticks (`Nat`); `datetime.now()` becomes an explicit
  `now` argument, `isoformat` its string form.
* Python exceptions become `Except String`; the handlers' `try/except`
  blocks become pattern matches whose error branches build exactly the
  envelope the `except` clause builds, paired with the session state after
  rollback (rollback discards uncommitted work only, so an error branch
  reached after a commit keeps the committed state).
* Besides the deterministic failures (unique-constraint violation, the
  division by zero in the pagination computation) the external store can
  raise at any call; each handler therefore takes one `Option String`
  fault parameter per store call site: `some msg` means that call raises
  an exception whose string form is `msg`.
-/

/-- JSON values, the serialization target of `JSONResponse`. -/
inductive Json where
  | null : Json
  | str : String → Json
  | num : Nat → Json
  | bool : Bool → Json
  | arr : List Json → Json
  | obj : List (String × Json) → Json

/-- A client row (`models/clients.py`, class `Client`). `created_at` is an
abstract timestamp tick. -/
structure ClientRow where
  id : Nat
  name : String
  email : String
  created_at : Nat
deriving DecidableEq, Repr

/-- The relational store: the `clients` table as its rows in insertion order,
plus the autoincrement counter for the primary key. -/
structure Store where
  rows : List ClientRow
  nextId : Nat
deriving DecidableEq, Repr

/-- Well-formedness of a store state: primary keys are distinct, emails are
distinct (the unique constraint), and every assigned id is below the
autoincrement counter. Every state reachable through the handlers satisfies
this. -/
def Store.WF (s : Store) : Prop :=
  (s.rows.map (fun c => c.id)).Nodup ∧
  (s.rows.map (fun c => c.email)).Nodup ∧
  ∀ c ∈ s.rows, c.id < s.nextId

instance (s : Store) : Decidable s.WF := by
  unfold Store.WF; infer_instance

/-- String form of the exception the store raises on an email
unique-constraint violation. -/
def dupEmailMsg : String := "UNIQUE constraint failed: clients.email"

/-- String form of Python's `ZeroDivisionError`. -/
def zeroDivMsg : String := "integer division or modulo by zero"

/-- `isoformat` of an abstract timestamp tick. -/
def isoformat (t : Nat) : String := toString t

/-- Does some row already carry this email? (the unique-constraint check). -/
def Store.emailExists (s : Store) (email : String) : Bool :=
  s.rows.any (fun c => c.email == email)

/-- `INSERT INTO clients (name, email, created_at) VALUES (...)` followed by
commit: assigns the autoincrement id and appends the row; raises if the
email is already present (unique constraint). -/
def Store.insertClient (s : Store) (name email : String) (ts : Nat) :
    Except String Store :=
  if s.emailExists email then
    .error dupEmailMsg
  else
    .ok { rows := s.rows ++ [{ id := s.nextId, name := name, email := email,
                               created_at := ts }],
          nextId := s.nextId + 1 }

/-- `db.query(Client).filter(Client.email == email).first()`. -/
def Store.queryByEmail (s : Store) (email : String) : Option ClientRow :=
  s.rows.find? (fun c => c.email == email)

/-- `db.query(Client).filter(Client.id == i).first()`. -/
def Store.queryById (s : Store) (i : Nat) : Option ClientRow :=
  s.rows.find? (fun c => c.id == i)

/-- `db.query(Client).offset(offset).limit(limit).all()`. -/
def Store.pageQuery (s : Store) (offset limit : Nat) : List ClientRow :=
  (s.rows.drop offset).take limit

/-- `db.query(Client).count()`. -/
def Store.countClients (s : Store) : Nat := s.rows.length

/-- `UPDATE clients SET name = ..., email = ... WHERE id = i` followed by
commit. Raises iff a row is actually updated and another row already carries
the new email (unique constraint); when no row matches the id it is a
committed no-op. -/
def Store.updateById (s : Store) (i : Nat) (name email : String) :
    Except String Store :=
  if (s.rows.any (fun c => c.id == i)) &&
     (s.rows.any (fun c => c.id != i && c.email == email)) then
    .error dupEmailMsg
  else
    .ok { s with rows := s.rows.map (fun c =>
            if c.id == i then { c with name := name, email := email } else c) }

/-- `db.delete(client)` for the first row matching the id, followed by
commit. -/
def Store.deleteById (s : Store) (i : Nat) : Store :=
  { s with rows := s.rows.eraseP (fun c => c.id == i) }

/-- Fault injection at one store call site: `some msg` means the external
store raises an exception whose string form is `msg` at that call. -/
def withFault (f : Option String) (r : Except String α) : Except String α :=
  match f with
  | some msg => .error msg
  | none => r

/-- A `JSONResponse`: the serialized body (a JSON object, as its key/value
list in construction order) plus the HTTP status code. -/
structure Response where
  body : List (String × Json)
  status_code : Nat

/-- `BaseAPIResponse.get_response`: the uniform envelope. The content dict is
always built with exactly the four keys `status`, `message`, `data`,
`metadata` (Python's `data` parameter defaults to `None`, serialized as
`null`; `metadata or {}` replaces an absent metadata with `{}`). -/
def get_response (status message : String) (data : Json) (status_code : Nat)
    (metadata : Option (List (String × Json))) : Response :=
  { body := [("status", Json.str status),
             ("message", Json.str message),
             ("data", data),
             ("metadata", Json.obj (metadata.getD []))],
    status_code := status_code }

/-- `BaseAPIResponse.get_success_response`. -/
def get_success_response (data : Json) (message : String) (status_code : Nat) :
    Response :=
  get_response "success" message data status_code none

/-- `BaseAPIResponse.get_error_response`: status "error", data `None`,
metadata `{"details": details or {}}`. -/
def get_error_response (error : String) (status_code : Nat)
    (details : Option (List (String × Json))) : Response :=
  get_response "error" error Json.null status_code
    (some [("details", Json.obj (details.getD []))])

/-- `BaseAPIResponse.get_paginated_response`. -/
def get_paginated_response (data : List Json) (total_count page items_per_page : Nat)
    (has_more : Bool) (status_code : Nat) : Response :=
  get_response "success" "Data retrieved successfully" (Json.arr data) status_code
    (some [("pagination", Json.obj
      [("total_count", Json.num total_count),
       ("page", Json.num page),
       ("items_per_page", Json.num items_per_page),
       ("has_more", Json.bool has_more)])])

/-- The serialized form of one client row, as every handler builds it. -/
def clientJson (c : ClientRow) : Json :=
  Json.obj [("id", Json.num c.id),
            ("name", Json.str c.name),
            ("email", Json.str c.email),
            ("created_at", Json.str (isoformat c.created_at))]

/-- Python's `//`, raising `ZeroDivisionError` on a zero divisor (for
natural operands floor division coincides with `Nat` division). -/
def floordiv (a b : Nat) : Except String Nat :=
  if b == 0 then .error zeroDivMsg else .ok (a / b)

/-- `POST /clients/` (`create_client`): insert + commit, re-query by email
for the generated id, answer 201; any exception is caught, the transaction
rolled back, and a 400 error envelope with the exception's string form
returned. `fIns` and `fSel` inject store exceptions at the two call sites. -/
def create_client (db : Store) (name email : String) (now : Nat)
    (fIns fSel : Option String) : Response × Store :=
  match withFault fIns (db.insertClient name email now) with
  | .error e =>
      (get_error_response "Failed to create client" 400
        (some [("exception", Json.str e)]), db)
  | .ok db1 =>
      match withFault fSel (.ok (db1.queryByEmail email)) with
      | .error e =>
          (get_error_response "Failed to create client" 400
            (some [("exception", Json.str e)]), db1)
      | .ok none =>
          (get_error_response "Failed to create client" 400
            (some [("exception", Json.str "Failed to fetch the newly created client")]),
           db1)
      | .ok (some c) =>
          (get_success_response (clientJson c) "Client created successfully" 201,
           db1)

/-- `GET /clients/` (`get_clients`): page query, count, pagination metadata
with `page = (offset // limit) + 1` and `has_more = offset + limit < total_count`;
any exception (including the division by zero when `limit = 0`) is caught and
answered as a 500 error envelope. Read-only: the store is unchanged. -/
def get_clients (db : Store) (limit offset : Nat)
    (fSel fCnt : Option String) : Response :=
  match withFault fSel (.ok (db.pageQuery offset limit)) with
  | .error e =>
      get_error_response "Error retrieving clients" 500
        (some [("exception", Json.str e)])
  | .ok result =>
      match withFault fCnt (.ok db.countClients) with
      | .error e =>
          get_error_response "Error retrieving clients" 500
            (some [("exception", Json.str e)])
      | .ok total_count =>
          match floordiv offset limit with
          | .error e =>
              get_error_response "Error retrieving clients" 500
                (some [("exception", Json.str e)])
          | .ok q =>
              get_paginated_response (result.map clientJson) total_count
                (q + 1) limit (decide (offset + limit < total_count)) 200

/-- `GET /clients/{id}` (`get_client`): query by id, 404 error envelope when
absent, else 200 with the row; any store exception becomes a 500 error
envelope. Read-only. -/
def get_client (db : Store) (client_id : Nat) (fSel : Option String) : Response :=
  match withFault fSel (.ok (db.queryById client_id)) with
  | .error e =>
      get_error_response "Error retrieving client" 500
        (some [("exception", Json.str e)])
  | .ok none =>
      get_error_response "Client not found" 404 none
  | .ok (some c) =>
      get_success_response (clientJson c) "Client retrieved successfully" 200

/-- `PUT /clients/{id}` (`update_client`): UPDATE + commit first, then the
re-fetch decides 404 vs 200 — a miss is answered 404 after the (empty)
update has already been committed, with no rollback on that path. A store
exception after the commit keeps the committed state. -/
def update_client (db : Store) (client_id : Nat) (name email : String)
    (fUpd fSel : Option String) : Response × Store :=
  match withFault fUpd (db.updateById client_id name email) with
  | .error e =>
      (get_error_response "Error updating client" 500
        (some [("exception", Json.str e)]), db)
  | .ok db1 =>
      match withFault fSel (.ok (db1.queryById client_id)) with
      | .error e =>
          (get_error_response "Error updating client" 500
            (some [("exception", Json.str e)]), db1)
      | .ok none =>
          (get_error_response "Client not found" 404 none, db1)
      | .ok (some c) =>
          (get_success_response (clientJson c) "Client updated successfully" 200,
           db1)

/-- `DELETE /clients/{id}` (`delete_client`): fetch first (404 when absent,
store untouched), then delete + commit and answer 204; a store exception
rolls back and becomes a 500 error envelope. -/
def delete_client (db : Store) (client_id : Nat)
    (fSel fDel : Option String) : Response × Store :=
  match withFault fSel (.ok (db.queryById client_id)) with
  | .error e =>
      (get_error_response "Error deleting client" 500
        (some [("exception", Json.str e)]), db)
  | .ok none =>
      (get_error_response "Client not found" 404 none, db)
  | .ok (some _) =>
      match withFault fDel (.ok (db.deleteById client_id)) with
      | .error e =>
          (get_error_response "Error deleting client" 500
            (some [("exception", Json.str e)]), db)
      | .ok db1 =>
          (get_success_response Json.null "Client deleted successfully" 204, db1)

/-- Look a key up in a response body. -/
def Response.lookup (r : Response) (k : String) : Option Json :=
  r.body.lookup k

/-- The keys of a response body, in serialization order. -/
def Response.keys (r : Response) : List String :=
  r.body.map Prod.fst

/-- Look a field up inside a JSON object value. -/
def Json.lookupField : Json → String → Option Json
  | Json.obj fs, k => fs.lookup k
  | _, _ => none

/-- A field of the response's `data` object. -/
def Response.dataField (r : Response) (k : String) : Option Json :=
  (r.lookup "data").bind (fun d => d.lookupField k)

/-- A field of the response's `metadata` object. -/
def Response.metaField (r : Response) (k : String) : Option Json :=
  (r.lookup "metadata").bind (fun m => m.lookupField k)

/-- A 2xx status code. -/
def is2xx (n : Nat) : Prop := 200 ≤ n ∧ n < 300

/-- Empty store, autoincrement at 1 (a fresh table). -/
def store0 : Store := { rows := [], nextId := 1 }

/-- A first example row. -/
def rowA : ClientRow :=
  { id := 1, name := "Alice", email := "alice@example.com", created_at := 0 }

/-- A second example row. -/
def rowB : ClientRow :=
  { id := 2, name := "Bob", email := "bob@example.com", created_at := 1 }

/-- A third example row. -/
def rowC : ClientRow :=
  { id := 3, name := "Carol", email := "carol@example.com", created_at := 2 }

/-- Store holding one row. -/
def store1 : Store := { rows := [rowA], nextId := 2 }

/-- Store holding two rows. -/
def store2 : Store := { rows := [rowA, rowB], nextId := 3 }

/-- Store holding three rows. -/
def store3 : Store := { rows := [rowA, rowB, rowC], nextId := 4 }

/-- The uniform envelope shape: exactly the four keys in order, a
success-or-error status, and every error body carrying data `null`
(present, as serialized from Python's `None`) plus a details object under
metadata. -/
def envOk (r : Response) : Prop :=
  r.keys = ["status", "message", "data", "metadata"] ∧
  (r.lookup "status" = some (Json.str "success") ∨
   r.lookup "status" = some (Json.str "error")) ∧
  (r.lookup "status" = some (Json.str "error") →
    r.lookup "data" = some Json.null ∧
    ∃ d, r.metaField "details" = some (Json.obj d))

theorem envOk_success (d : Json) (m : String) (c : Nat) :
    envOk (get_success_response d m c) := by
  refine ⟨rfl, Or.inl rfl, fun h => ?_⟩
  simp [get_success_response, get_response, Response.lookup] at h

theorem envOk_error (e : String) (c : Nat) (dt : Option (List (String × Json))) :
    envOk (get_error_response e c dt) := by
  exact ⟨rfl, Or.inr rfl, fun _ => ⟨rfl, ⟨_, rfl⟩⟩⟩

theorem envOk_paginated (d : List Json) (t p i : Nat) (hm : Bool) (c : Nat) :
    envOk (get_paginated_response d t p i hm c) := by
  refine ⟨rfl, Or.inl rfl, fun h => ?_⟩
  simp [get_paginated_response, get_response, Response.lookup] at h

/-- C10: a list request with limit = 0 is answered with the 500 error
envelope carrying the division-by-zero exception text: the page computation
(offset // limit) + 1 raises ZeroDivisionError inside the try block, the
generic except branch catches it, and no success page is produced. -/
theorem C10_list_limit_zero_divides (db : Store) (offset : Nat) :
    get_clients db 0 offset none none =
      get_error_response "Error retrieving clients" 500
        (some [("exception", Json.str zeroDivMsg)]) := rfl

/-- C8: every exception raised by the store during a handler's store
interaction is caught inside the handler and converted to the uniform error
envelope, with the exception's string form verbatim under
metadata.details.exception. The handlers are total functions into
`Response`, so nothing propagates to the transport layer. Stated for an
arbitrary message at every store call site of the five handlers; for the
second call sites under the assumption that the first call succeeded, with
the session state the rollback semantics dictates (create and update keep
the already-committed state, delete rolls back to the original store). -/
theorem C8_exception_conversion (db dbI dbU : Store) (msg n e : String)
    (ts cid limit offset : Nat) (f2 : Option String) (c : ClientRow) :
    (create_client db n e ts (some msg) f2 =
       (get_error_response "Failed to create client" 400
          (some [("exception", Json.str msg)]), db)) ∧
    (get_clients db limit offset (some msg) f2 =
       get_error_response "Error retrieving clients" 500
          (some [("exception", Json.str msg)])) ∧
    (get_clients db limit offset none (some msg) =
       get_error_response "Error retrieving clients" 500
          (some [("exception", Json.str msg)])) ∧
    (get_client db cid (some msg) =
       get_error_response "Error retrieving client" 500
          (some [("exception", Json.str msg)])) ∧
    (update_client db cid n e (some msg) f2 =
       (get_error_response "Error updating client" 500
          (some [("exception", Json.str msg)]), db)) ∧
    (delete_client db cid (some msg) f2 =
       (get_error_response "Error deleting client" 500
          (some [("exception", Json.str msg)]), db)) ∧
    (db.insertClient n e ts = Except.ok dbI →
       create_client db n e ts none (some msg) =
         (get_error_response "Failed to create client" 400
            (some [("exception", Json.str msg)]), dbI)) ∧
    (db.updateById cid n e = Except.ok dbU →
       update_client db cid n e none (some msg) =
         (get_error_response "Error updating client" 500
            (some [("exception", Json.str msg)]), dbU)) ∧
    (db.queryById cid = some c →
       delete_client db cid none (some msg) =
         (get_error_response "Error deleting client" 500
            (some [("exception", Json.str msg)]), db)) := by
  refine ⟨rfl, rfl, rfl, rfl, rfl, rfl, fun h => ?_, fun h => ?_, fun h => ?_⟩
  · simp [create_client, withFault, h]
  · simp [update_client, withFault, h]
  · simp [delete_client, withFault, h]

/-- Witness for C8 at concrete inputs: the one-row store, message "boom",
with all three second-call-site hypotheses discharged. -/
theorem C8_exception_conversion_witness :
    (create_client store1 "Bob" "bob@example.com" 5 (some "boom") none =
       (get_error_response "Failed to create client" 400
          (some [("exception", Json.str "boom")]), store1)) ∧
    (get_clients store1 10 0 (some "boom") none =
       get_error_response "Error retrieving clients" 500
          (some [("exception", Json.str "boom")])) ∧
    (get_clients store1 10 0 none (some "boom") =
       get_error_response "Error retrieving clients" 500
          (some [("exception", Json.str "boom")])) ∧
    (get_client store1 1 (some "boom") =
       get_error_response "Error retrieving client" 500
          (some [("exception", Json.str "boom")])) ∧
    (update_client store1 1 "Bob" "bob@example.com" (some "boom") none =
       (get_error_response "Error updating client" 500
          (some [("exception", Json.str "boom")]), store1)) ∧
    (delete_client store1 1 (some "boom") none =
       (get_error_response "Error deleting client" 500
          (some [("exception", Json.str "boom")]), store1)) ∧
    (create_client store1 "Bob" "bob@example.com" 5 none (some "boom") =
       (get_error_response "Failed to create client" 400
          (some [("exception", Json.str "boom")]),
        { rows := [rowA, { id := 2, name := "Bob", email := "bob@example.com",
                           created_at := 5 }], nextId := 3 })) ∧
    (update_client store1 1 "Bob" "bob@example.com" none (some "boom") =
       (get_error_response "Error updating client" 500
          (some [("exception", Json.str "boom")]),
        { rows := [{ id := 1, name := "Bob", email := "bob@example.com",
                     created_at := 0 }], nextId := 2 })) ∧
    (delete_client store1 1 none (some "boom") =
       (get_error_response "Error deleting client" 500
          (some [("exception", Json.str "boom")]), store1)) := by
  have h := C8_exception_conversion store1
    { rows := [rowA, { id := 2, name := "Bob", email := "bob@example.com",
                       created_at := 5 }], nextId := 3 }
    { rows := [{ id := 1, name := "Bob", email := "bob@example.com",
                 created_at := 0 }], nextId := 2 }
    "boom" "Bob" "bob@example.com" 5 1 10 0 none rowA
  exact ⟨h.1, h.2.1, h.2.2.1, h.2.2.2.1, h.2.2.2.2.1, h.2.2.2.2.2.1,
         h.2.2.2.2.2.2.1 rfl, h.2.2.2.2.2.2.2.1 rfl,
         h.2.2.2.2.2.2.2.2 rfl⟩

/-- C3 counterexample: an error outcome (get-by-id on the empty store, the
404 error envelope) whose serialized body does contain the data field —
with value null — rather than omitting it entirely. -/
theorem C3_counterexample_data_not_omitted :
    (get_client store0 1 none).lookup "status" = some (Json.str "error") ∧
    (get_client store0 1 none).lookup "data" = some Json.null ∧
    "data" ∈ (get_client store0 1 none).keys :=
  ⟨rfl, rfl, by decide⟩

/-- C3 amended: every response of any of the five operations — over all
stores, arguments and injected store faults — is the uniform four-key
envelope (status, message, data, metadata) with status success or error;
error bodies do not omit the data field but carry it with value null
(serialized from Python's None), and nest failure details under
metadata.details; success bodies carry status "success". -/
theorem C3_envelope_shape (db : Store) (n e : String) (ts cid limit offset : Nat)
    (f1 f2 : Option String) :
    envOk (create_client db n e ts f1 f2).1 ∧
    envOk (get_clients db limit offset f1 f2) ∧
    envOk (get_client db cid f1) ∧
    envOk (update_client db cid n e f1 f2).1 ∧
    envOk (delete_client db cid f1 f2).1 := by
  refine ⟨?_, ?_, ?_, ?_, ?_⟩
  · unfold create_client
    split
    · exact envOk_error _ _ _
    · split
      · exact envOk_error _ _ _
      · exact envOk_error _ _ _
      · exact envOk_success _ _ _
  · unfold get_clients
    split
    · exact envOk_error _ _ _
    · split
      · exact envOk_error _ _ _
      · split
        · exact envOk_error _ _ _
        · exact envOk_paginated _ _ _ _ _ _
  · unfold get_client
    split
    · exact envOk_error _ _ _
    · exact envOk_error _ _ _
    · exact envOk_success _ _ _
  · unfold update_client
    split
    · exact envOk_error _ _ _
    · split
      · exact envOk_error _ _ _
      · exact envOk_error _ _ _
      · exact envOk_success _ _ _
  · unfold delete_client
    split
    · exact envOk_error _ _ _
    · exact envOk_error _ _ _
    · split
      · exact envOk_error _ _ _
      · exact envOk_success _ _ _

/-- In a table whose emails are pairwise distinct, at most one row carries
any given email. -/
theorem countP_email_le_one (l : List ClientRow) (e : String)
    (h : (l.map (fun c => c.email)).Nodup) :
    l.countP (fun c => c.email == e) ≤ 1 := by
  induction l with
  | nil => simp
  | cons c l ih =>
    rw [List.map_cons, List.nodup_cons] at h
    rw [List.countP_cons]
    by_cases hc : (c.email == e) = true
    · have hce : c.email = e := by simpa using hc
      have hz : l.countP (fun x => x.email == e) = 0 := by
        rw [List.countP_eq_zero]
        intro a ha hae
        have hae' : a.email = e := by simpa using hae
        exact h.1 (by rw [hce]; exact List.mem_map.mpr ⟨a, ha, hae'⟩)
      simp [hz, hc]
    · have hc' : (c.email == e) = false := by simpa using hc
      simp only [hc']
      simp
      exact ih h.2

/-- C1: a create with an email some client already carries fails with the
400 error envelope (non-2xx) after rollback; the store is unchanged — no
record is silently overwritten — and it still holds exactly one record with
that email. -/
theorem C1_duplicate_email_create_conflict (db : Store) (n e : String) (ts : Nat)
    (hwf : db.WF) (hdup : db.emailExists e = true) :
    ¬ is2xx (create_client db n e ts none none).1.status_code ∧
    (create_client db n e ts none none).1.status_code = 400 ∧
    (create_client db n e ts none none).1.lookup "status" = some (Json.str "error") ∧
    (create_client db n e ts none none).2 = db ∧
    ((create_client db n e ts none none).2.rows.countP
      (fun c => c.email == e)) = 1 := by
  have hins : db.insertClient n e ts = .error dupEmailMsg := by
    simp [Store.insertClient, hdup]
  have hred : create_client db n e ts none none =
      (get_error_response "Failed to create client" 400
        (some [("exception", Json.str dupEmailMsg)]), db) := by
    simp [create_client, withFault, hins]
  rw [hred]
  refine ⟨by simp [is2xx, get_error_response, get_response], rfl, rfl, rfl, ?_⟩
  have hle := countP_email_le_one db.rows e hwf.2.1
  have hpos : 0 < db.rows.countP (fun c => c.email == e) := by
    rw [List.countP_pos_iff]
    exact List.any_eq_true.mp hdup
  show db.rows.countP (fun c => c.email == e) = 1
  omega

/-- Witness for C1: creating a second "alice@example.com" in the one-row
store. -/
theorem C1_duplicate_email_create_conflict_witness :
    ¬ is2xx (create_client store1 "Eve" "alice@example.com" 9 none none).1.status_code ∧
    (create_client store1 "Eve" "alice@example.com" 9 none none).1.status_code = 400 ∧
    (create_client store1 "Eve" "alice@example.com" 9 none none).1.lookup "status" =
      some (Json.str "error") ∧
    (create_client store1 "Eve" "alice@example.com" 9 none none).2 = store1 ∧
    ((create_client store1 "Eve" "alice@example.com" 9 none none).2.rows.countP
      (fun c => c.email == "alice@example.com")) = 1 :=
  C1_duplicate_email_create_conflict store1 "Eve" "alice@example.com" 9
    (by decide) rfl

/-- C2: creating with a fresh email succeeds with 201 and returns the
generated id (the autoincrement counter); a subsequent get with that id
answers a 200 success envelope whose data carries the same name and email. -/
theorem C2_create_then_get (db : Store) (n e : String) (ts : Nat)
    (hwf : db.WF) (hfresh : db.emailExists e = false) :
    (create_client db n e ts none none).1.status_code = 201 ∧
    (create_client db n e ts none none).1.lookup "status" = some (Json.str "success") ∧
    (create_client db n e ts none none).1.dataField "id" = some (Json.num db.nextId) ∧
    (get_client (create_client db n e ts none none).2 db.nextId none).status_code = 200 ∧
    (get_client (create_client db n e ts none none).2 db.nextId none).lookup "status" =
      some (Json.str "success") ∧
    (get_client (create_client db n e ts none none).2 db.nextId none).dataField "name" =
      some (Json.str n) ∧
    (get_client (create_client db n e ts none none).2 db.nextId none).dataField "email" =
      some (Json.str e) := by
  have hins : db.insertClient n e ts =
      .ok { rows := db.rows ++ [{ id := db.nextId, name := n, email := e,
                                  created_at := ts }],
            nextId := db.nextId + 1 } := by
    simp [Store.insertClient, hfresh]
  have hfind_old : db.rows.find? (fun c => c.email == e) = none := by
    rw [List.find?_eq_none]
    intro x hx
    exact List.any_eq_false.mp hfresh x hx
  have hq : Store.queryByEmail
      { rows := db.rows ++ [{ id := db.nextId, name := n, email := e,
                              created_at := ts }],
        nextId := db.nextId + 1 } e =
      some { id := db.nextId, name := n, email := e, created_at := ts } := by
    unfold Store.queryByEmail
    rw [List.find?_append, hfind_old, Option.none_or]
    exact List.find?_cons_of_pos _ (by simp)
  have hcreate : create_client db n e ts none none =
      (get_success_response
        (clientJson { id := db.nextId, name := n, email := e, created_at := ts })
        "Client created successfully" 201,
       { rows := db.rows ++ [{ id := db.nextId, name := n, email := e,
                               created_at := ts }],
         nextId := db.nextId + 1 }) := by
    simp [create_client, withFault, hins, hq]
  have hfind_old_id : db.rows.find? (fun c => c.id == db.nextId) = none := by
    rw [List.find?_eq_none]
    intro x hx
    simp only [beq_iff_eq]
    exact Nat.ne_of_lt (hwf.2.2 x hx)
  have hgq : Store.queryById
      { rows := db.rows ++ [{ id := db.nextId, name := n, email := e,
                              created_at := ts }],
        nextId := db.nextId + 1 } db.nextId =
      some { id := db.nextId, name := n, email := e, created_at := ts } := by
    unfold Store.queryById
    rw [List.find?_append, hfind_old_id, Option.none_or]
    exact List.find?_cons_of_pos _ (by simp)
  have hget : get_client
      { rows := db.rows ++ [{ id := db.nextId, name := n, email := e,
                              created_at := ts }],
        nextId := db.nextId + 1 } db.nextId none =
      get_success_response
        (clientJson { id := db.nextId, name := n, email := e, created_at := ts })
        "Client retrieved successfully" 200 := by
    simp [get_client, withFault, hgq]
  rw [hcreate]
  refine ⟨rfl, rfl, rfl, ?_, ?_, ?_, ?_⟩ <;>
    simp [hget, get_success_response, get_response, Response.dataField,
          Response.lookup, Json.lookupField, clientJson] <;> rfl

/-- Witness for C2: creating Bob in the one-row store and fetching id 2. -/
theorem C2_create_then_get_witness :
    (create_client store1 "Bob" "bob@example.com" 7 none none).1.status_code = 201 ∧
    (create_client store1 "Bob" "bob@example.com" 7 none none).1.lookup "status" =
      some (Json.str "success") ∧
    (create_client store1 "Bob" "bob@example.com" 7 none none).1.dataField "id" =
      some (Json.num store1.nextId) ∧
    (get_client (create_client store1 "Bob" "bob@example.com" 7 none none).2
        store1.nextId none).status_code = 200 ∧
    (get_client (create_client store1 "Bob" "bob@example.com" 7 none none).2
        store1.nextId none).lookup "status" = some (Json.str "success") ∧
    (get_client (create_client store1 "Bob" "bob@example.com" 7 none none).2
        store1.nextId none).dataField "name" = some (Json.str "Bob") ∧
    (get_client (create_client store1 "Bob" "bob@example.com" 7 none none).2
        store1.nextId none).dataField "email" = some (Json.str "bob@example.com") :=
  C2_create_then_get store1 "Bob" "bob@example.com" 7 (by decide) rfl

/-- Reduction of the list handler when the limit is nonzero: the successful
paginated envelope over the insertion-ordered page. -/
theorem get_clients_pos (db : Store) (limit offset : Nat) (hl : limit ≠ 0) :
    get_clients db limit offset none none =
      get_paginated_response (((db.rows.drop offset).take limit).map clientJson)
        db.rows.length (offset / limit + 1) limit
        (decide (offset + limit < db.rows.length)) 200 := by
  have hld : floordiv offset limit = .ok (offset / limit) := by
    simp [floordiv, hl]
  simp [get_clients, withFault, hld, Store.pageQuery, Store.countClients]

/-- C4: the page a list request returns is the records in insertion order —
the contiguous drop-offset/take-limit slice of the table's insertion
sequence, an order-preserving subsequence (sublist) of it — for every
nonzero limit and every offset (limit = 0 produces no page at all, see the
division-by-zero behaviour). -/
theorem C4_list_insertion_order (db : Store) (limit offset : Nat)
    (hl : 0 < limit) :
    (get_clients db limit offset none none).lookup "data" =
      some (Json.arr (((db.rows.drop offset).take limit).map clientJson)) ∧
    ((db.rows.drop offset).take limit).Sublist db.rows := by
  rw [get_clients_pos db limit offset (Nat.pos_iff_ne_zero.mp hl)]
  exact ⟨rfl, (List.take_sublist _ _).trans (List.drop_sublist _ _)⟩

/-- Witness for C4: listing the three-row store with limit 2, offset 1. -/
theorem C4_list_insertion_order_witness :
    (get_clients store3 2 1 none none).lookup "data" =
      some (Json.arr (((store3.rows.drop 1).take 2).map clientJson)) ∧
    ((store3.rows.drop 1).take 2).Sublist store3.rows :=
  C4_list_insertion_order store3 2 1 (by decide)

/-- C5: a list request with limit L > 0 and offset O over N stored records
succeeds with 200, returns min L (N - O) items (truncated subtraction, so 0
when O exceeds N), and its pagination metadata carries total_count = N,
page = O / L + 1, items_per_page = L and has_more = decide (O + L < N). -/
theorem C5_pagination_metadata (db : Store) (L O : Nat) (hl : 0 < L) :
    (get_clients db L O none none).status_code = 200 ∧
    (∃ items : List Json,
       (get_clients db L O none none).lookup "data" = some (Json.arr items) ∧
       items.length = min L (db.rows.length - O)) ∧
    (get_clients db L O none none).metaField "pagination" =
      some (Json.obj
        [("total_count", Json.num db.rows.length),
         ("page", Json.num (O / L + 1)),
         ("items_per_page", Json.num L),
         ("has_more", Json.bool (decide (O + L < db.rows.length)))]) := by
  rw [get_clients_pos db L O (Nat.pos_iff_ne_zero.mp hl)]
  refine ⟨rfl, ⟨((db.rows.drop O).take L).map clientJson, rfl, ?_⟩, rfl⟩
  rw [List.length_map, List.length_take, List.length_drop]

/-- Witness for C5: the three-row store, limit 2, offset 1: two items,
total_count 3, page 1, has_more false. -/
theorem C5_pagination_metadata_witness :
    (get_clients store3 2 1 none none).status_code = 200 ∧
    (∃ items : List Json,
       (get_clients store3 2 1 none none).lookup "data" = some (Json.arr items) ∧
       items.length = min 2 (store3.rows.length - 1)) ∧
    (get_clients store3 2 1 none none).metaField "pagination" =
      some (Json.obj
        [("total_count", Json.num store3.rows.length),
         ("page", Json.num (1 / 2 + 1)),
         ("items_per_page", Json.num 2),
         ("has_more", Json.bool (decide (1 + 2 < store3.rows.length)))]) :=
  C5_pagination_metadata store3 2 1 (by decide)

/-- C6 counterexample: id 1 exists in the two-row store, yet updating it
with Bob's email does not make the targeted record carry the supplied
values: the store's unique-email constraint raises, the handler answers a
500 error envelope after rollback, and the store is unchanged. -/
theorem C6_counterexample_email_conflict :
    (∃ c ∈ store2.rows, c.id = 1) ∧
    (update_client store2 1 "Changed" "bob@example.com" none none).1.status_code = 500 ∧
    (update_client store2 1 "Changed" "bob@example.com" none none).2 = store2 ∧
    ¬ ∃ c ∈ (update_client store2 1 "Changed" "bob@example.com" none none).2.rows,
        c.id = 1 ∧ c.name = "Changed" := by
  exact ⟨⟨rowA, by decide, rfl⟩, rfl, rfl, by decide⟩

/-- C6 amended: updating an existing id with an email held by no other
record succeeds with 200; the targeted record's name and email become the
supplied values while its id and created_at stay unchanged, every other
record is unchanged, and no record is added or removed. (When the supplied
email belongs to another record, the store's unique constraint makes the
update fail with a 500 error envelope and an unchanged store instead — see
the counterexample.) -/
theorem C6_update_existing_frame (db : Store) (cid : Nat) (n e : String)
    (c0 : ClientRow) (hc0 : c0 ∈ db.rows) (hid : c0.id = cid)
    (hnoconf : ∀ c ∈ db.rows, c.id ≠ cid → c.email ≠ e) :
    (update_client db cid n e none none).1.status_code = 200 ∧
    (update_client db cid n e none none).1.lookup "status" = some (Json.str "success") ∧
    (update_client db cid n e none none).2.rows =
      db.rows.map (fun c => if c.id = cid then
        { id := c.id, name := n, email := e, created_at := c.created_at } else c) ∧
    { id := c0.id, name := n, email := e, created_at := c0.created_at } ∈
      (update_client db cid n e none none).2.rows ∧
    (∀ c ∈ db.rows, c.id ≠ cid → c ∈ (update_client db cid n e none none).2.rows) ∧
    (update_client db cid n e none none).2.rows.length = db.rows.length := by
  have h2 : db.rows.any (fun c => c.id != cid && c.email == e) = false := by
    rw [List.any_eq_false]
    intro x hx
    simp only [Bool.and_eq_true, bne_iff_ne, beq_iff_eq, not_and]
    intro hne
    exact hnoconf x hx hne
  have hupd : db.updateById cid n e =
      .ok { rows := db.rows.map (fun c =>
              if c.id == cid then { c with name := n, email := e } else c),
            nextId := db.nextId } := by
    simp [Store.updateById, h2]
  have hmem : ({ id := c0.id, name := n, email := e,
                 created_at := c0.created_at } : ClientRow) ∈
      db.rows.map (fun c =>
        if c.id == cid then { c with name := n, email := e } else c) := by
    have hf0 : (fun c => if c.id == cid then
          { c with name := n, email := e } else c) c0 =
        { id := c0.id, name := n, email := e, created_at := c0.created_at } := by
      simp [hid]
    rw [← hf0]
    exact List.mem_map_of_mem _ hc0
  obtain ⟨c', hc'⟩ : ∃ c',
      (db.rows.map (fun c =>
        if c.id == cid then { c with name := n, email := e } else c)).find?
          (fun c => c.id == cid) = some c' := by
    cases hf : (db.rows.map (fun c =>
        if c.id == cid then { c with name := n, email := e } else c)).find?
          (fun c => c.id == cid) with
    | some c' => exact ⟨c', rfl⟩
    | none =>
      exfalso
      have := List.find?_eq_none.mp hf _ hmem
      simp [hid] at this
  have hred : update_client db cid n e none none =
      (get_success_response (clientJson c') "Client updated successfully" 200,
       { rows := db.rows.map (fun c =>
           if c.id == cid then { c with name := n, email := e } else c),
         nextId := db.nextId }) := by
    simp only [update_client, withFault, hupd, Store.queryById, hc']
  rw [hred]
  refine ⟨rfl, rfl, ?_, hmem, ?_, ?_⟩
  · apply List.map_congr_left
    intro a _
    by_cases h : a.id = cid
    · simp [h]
    · simp [h]
  · intro c hc hne
    have hfc : (fun c => if c.id == cid then
        { c with name := n, email := e } else c) c = c := by
      simp [hne]
    rw [← hfc]
    exact List.mem_map_of_mem _ hc
  · exact List.length_map _ _

/-- Witness for C6: renaming Alice (id 1) in the two-row store with a fresh
email. -/
theorem C6_update_existing_frame_witness :
    (update_client store2 1 "Alicia" "alicia@example.com" none none).1.status_code = 200 ∧
    (update_client store2 1 "Alicia" "alicia@example.com" none none).1.lookup "status" =
      some (Json.str "success") ∧
    (update_client store2 1 "Alicia" "alicia@example.com" none none).2.rows =
      store2.rows.map (fun c => if c.id = 1 then
        { id := c.id, name := "Alicia", email := "alicia@example.com",
          created_at := c.created_at } else c) ∧
    { id := rowA.id, name := "Alicia", email := "alicia@example.com",
      created_at := rowA.created_at } ∈
      (update_client store2 1 "Alicia" "alicia@example.com" none none).2.rows ∧
    (∀ c ∈ store2.rows, c.id ≠ 1 →
      c ∈ (update_client store2 1 "Alicia" "alicia@example.com" none none).2.rows) ∧
    (update_client store2 1 "Alicia" "alicia@example.com" none none).2.rows.length =
      store2.rows.length :=
  C6_update_existing_frame store2 1 "Alicia" "alicia@example.com" rowA
    (by decide) rfl (by decide)

/-- After erasing the first row with a given id from a table whose ids are
pairwise distinct, no row with that id remains to be found. -/
theorem find?_eraseP_of_nodup (l : List ClientRow) (cid : Nat)
    (h : (l.map (fun c => c.id)).Nodup) :
    (l.eraseP (fun c => c.id == cid)).find? (fun c => c.id == cid) = none := by
  induction l with
  | nil => rfl
  | cons c l ih =>
    rw [List.map_cons, List.nodup_cons] at h
    by_cases hc : (c.id == cid) = true
    · rw [List.eraseP_cons_of_pos (p := fun (c : ClientRow) => c.id == cid) hc,
          List.find?_eq_none]
      intro x hx
      simp only [beq_iff_eq]
      intro hxid
      have hcid : c.id = cid := by simpa using hc
      exact h.1 (by rw [hcid, ← hxid]; exact List.mem_map.mpr ⟨x, hx, rfl⟩)
    · rw [List.eraseP_cons_of_neg (p := fun (c : ClientRow) => c.id == cid) hc,
          List.find?_cons_of_neg (p := fun (c : ClientRow) => c.id == cid) _ hc]
      exact ih h.2

/-- C7: deleting an id present in the store succeeds (204 success envelope)
and removes the record, so that a subsequent get with that id answers the
404 error envelope; deleting an id absent from the store answers the 404
error envelope itself and leaves the store unchanged. -/
theorem C7_delete_then_get (db : Store) (cid : Nat) (hwf : db.WF) :
    (∀ c0 ∈ db.rows, c0.id = cid →
      (delete_client db cid none none).1.status_code = 204 ∧
      (delete_client db cid none none).1.lookup "status" = some (Json.str "success") ∧
      (get_client (delete_client db cid none none).2 cid none).status_code = 404 ∧
      (get_client (delete_client db cid none none).2 cid none).lookup "status" =
        some (Json.str "error")) ∧
    (db.queryById cid = none →
      delete_client db cid none none =
        (get_error_response "Client not found" 404 none, db)) := by
  constructor
  · intro c0 hc0 hid
    obtain ⟨c', hc'⟩ : ∃ c', db.rows.find? (fun c => c.id == cid) = some c' := by
      cases hf : db.rows.find? (fun c => c.id == cid) with
      | some c' => exact ⟨c', rfl⟩
      | none =>
        exfalso
        have := List.find?_eq_none.mp hf _ hc0
        simp [hid] at this
    have hred : delete_client db cid none none =
        (get_success_response Json.null "Client deleted successfully" 204,
         db.deleteById cid) := by
      simp only [delete_client, withFault, Store.queryById, hc']
    rw [hred]
    refine ⟨rfl, rfl, ?_, ?_⟩ <;>
      · have hnone : (db.deleteById cid).queryById cid = none := by
          unfold Store.deleteById Store.queryById
          exact find?_eraseP_of_nodup db.rows cid hwf.1
        simp only [get_client, withFault, hnone]
        rfl
  · intro hq
    simp only [delete_client, withFault, Store.queryById] at *
    rw [hq]

/-- Witness for C7: deleting id 1 from the one-row store (then getting it),
and deleting id 5 from the empty store. -/
theorem C7_delete_then_get_witness :
    ((delete_client store1 1 none none).1.status_code = 204 ∧
     (delete_client store1 1 none none).1.lookup "status" = some (Json.str "success") ∧
     (get_client (delete_client store1 1 none none).2 1 none).status_code = 404 ∧
     (get_client (delete_client store1 1 none none).2 1 none).lookup "status" =
       some (Json.str "error")) ∧
    (delete_client store0 5 none none =
      (get_error_response "Client not found" 404 none, store0)) :=
  ⟨(C7_delete_then_get store1 1 (by decide)).1 rowA (by decide) rfl,
   (C7_delete_then_get store0 5 (by decide)).2 rfl⟩

/-- C9: an update whose id matches no record answers the 404 error envelope
and leaves the store unchanged, even though the UPDATE statement is executed
and committed before the existence check: the committed UPDATE matches zero
rows (a no-op), and the 404 branch performs no rollback. -/
theorem C9_update_missing_id (db : Store) (cid : Nat) (n e : String)
    (hq : db.queryById cid = none) :
    update_client db cid n e none none =
      (get_error_response "Client not found" 404 none, db) := by
  have hnomatch : ∀ c ∈ db.rows, (c.id == cid) = false := by
    intro c hc
    have := List.find?_eq_none.mp hq c hc
    simpa using this
  have hany : db.rows.any (fun c => c.id == cid) = false := by
    rw [List.any_eq_false]
    intro x hx
    simp [hnomatch x hx]
  have hmap : db.rows.map (fun c =>
      if c.id == cid then { c with name := n, email := e } else c) = db.rows := by
    have := List.map_congr_left (l := db.rows)
      (f := fun c => if c.id == cid then { c with name := n, email := e } else c)
      (g := fun c => c) (fun a ha => by simp [hnomatch a ha])
    simpa using this
  have hupd : db.updateById cid n e = .ok db := by
    simp only [Store.updateById, hany, Bool.false_and, if_neg Bool.false_ne_true]
    rw [hmap]
  simp only [update_client, withFault, hupd, hq]

/-- Witness for C9: updating id 7 in the one-row store. -/
theorem C9_update_missing_id_witness :
    update_client store1 7 "Nobody" "nobody@example.com" none none =
      (get_error_response "Client not found" 404 none, store1) :=
  C9_update_missing_id store1 7 "Nobody" "nobody@example.com" rfl
